import Mathlib

/-!
Verification development for the exoplanet dashboard (`app.py`).

The script loads a CSV catalog, renames raw columns to semantic names,
coerces twelve measurement columns to numeric (non-parseable cells become
null), derives two categorical bucket columns, and then filters and
aggregates the normalized table according to sidebar predicates.

Modelling conventions of this shallow embedding:
* floats are modelled as exact rationals (`ℚ`); a missing value / NaN is
  modelled as `none` of an `Option` (pandas NaN semantics: NaN fails every
  comparison, is skipped by `mean`, dropped by `groupby`, `value_counts`
  and `nunique`, and `isin` of a string list is false for NaN);
* a DataFrame is a header (list of column names) plus a list of rows,
  each row a list of cells; a typed `Record` mirrors the normalized row;
* Python exceptions (`KeyError` from `df[c]` on a missing column,
  `ValueError` from `int(nan)`) are modelled with `Except String`,
  carrying the name involved.
-/

namespace Exoplanets

/-- Size bucket function, from `size_bucket` in `app.py` (lines 67-77):
`Unknown` on NaN, then half-open buckets at 1.25, 2 and 6. -/
def size_bucket (r : Option ℚ) : String :=
  match r with
  | none => "Unknown"
  | some x =>
    if x < mkRat 5 4 then "Earth-size"
    else if x < 2 then "Super-Earth"
    else if x < 6 then "Neptune-like"
    else "Gas Giant"

/-- Temperature bucket function, from `temp_bucket` in `app.py`
(lines 82-90): `Unknown` on NaN, then half-open buckets at 200 and 800. -/
def temp_bucket (t : Option ℚ) : String :=
  match t with
  | none => "Unknown"
  | some x =>
    if x < 200 then "Cold"
    else if x < 800 then "Warm"
    else "Hot"

/-! Raw cells and numeric coercion, `pd.to_numeric(..., errors="coerce")`. -/

/-- A raw CSV cell: a number, a string, or a missing value. -/
inductive Cell where
  | num (q : ℚ)
  | str (s : String)
  | empty
deriving DecidableEq, Repr

/-- Numeric value of list of decimal digit characters. -/
def digitsVal (ds : List Char) : Nat :=
  ds.foldl (fun n c => n * 10 + (c.toNat - 48)) 0

/-- Whitespace trimming on a character list (Python float parsing
ignores surrounding whitespace). -/
def trimChars (cs : List Char) : List Char :=
  ((cs.dropWhile Char.isWhitespace).reverse.dropWhile Char.isWhitespace).reverse

/-- Best-effort decimal parsing of a string into an exact rational,
modelling Python float parsing as used by `pd.to_numeric`: optional
sign, integer digits, optional fractional digits, optional exponent;
anything else parses to `none`. -/
def parseNum (s : String) : Option ℚ :=
  let cs := trimChars s.toList
  let (neg, cs) : Bool × List Char :=
    match cs with
    | '+' :: t => (false, t)
    | '-' :: t => (true, t)
    | _ => (false, cs)
  let (ip, cs) := cs.span Char.isDigit
  let (fp, cs) :=
    match cs with
    | '.' :: t => t.span Char.isDigit
    | _ => (([] : List Char), cs)
  if ip.isEmpty && fp.isEmpty then none
  else
    let m : Nat := digitsVal (ip ++ fp)
    let sc : Nat := fp.length
    let sgn : Int := if neg then -1 else 1
    match cs with
    | [] => some (mkRat (sgn * m) (10 ^ sc))
    | 'e' :: t | 'E' :: t =>
      let (eneg, t) : Bool × List Char :=
        match t with
        | '+' :: u => (false, u)
        | '-' :: u => (true, u)
        | _ => (false, t)
      let (ed, t) := t.span Char.isDigit
      if ed.isEmpty || !t.isEmpty then none
      else
        let e := digitsVal ed
        some (if eneg then mkRat (sgn * m) (10 ^ (sc + e))
              else mkRat (sgn * m * 10 ^ e) (10 ^ sc))
    | _ => none

/-- Coercion of one cell, modelling `pd.to_numeric(cell, errors="coerce")`:
numbers pass through, strings are parsed, failures and missing become null. -/
def to_numeric (c : Cell) : Option ℚ :=
  match c with
  | .num q => some q
  | .str s => parseNum s
  | .empty => none

/-- Repack an optional rational as a cell (null prints as NaN). -/
def numCell (q : Option ℚ) : Cell :=
  match q with
  | some x => .num x
  | none => .empty

/-- Numeric reading of a post-coercion cell (`pd.isna` test plus value). -/
def cellVal (c : Cell) : Option ℚ :=
  match c with
  | .num q => some q
  | _ => none

/-! The raw table and `load_data` (lines 35-94). -/

/-- A DataFrame as read from the CSV: a header row of column names and a
list of data rows (rectangular by CSV convention). -/
structure RawTable where
  header : List String
  rows : List (List Cell)
deriving DecidableEq, Repr

/-- The rename mapping of `df.rename(columns={...})`, lines 38-55. -/
def renamePairs : List (String × String) :=
  [("pl_name", "planet"), ("hostname", "star"), ("discoverymethod", "method"),
   ("disc_year", "year"), ("pl_orbper", "orbital_period"),
   ("pl_orbsmax", "semi_major_axis"), ("pl_rade", "radius_earth"),
   ("pl_bmasse", "mass_earth"), ("pl_orbeccen", "eccentricity"),
   ("pl_insol", "insolation"), ("pl_eqt", "eq_temp"), ("st_teff", "star_temp"),
   ("st_rad", "star_radius"), ("st_mass", "star_mass"), ("st_met", "metallicity"),
   ("sy_dist", "distance_pc")]

/-- Rename one column name: pandas `rename` renames the listed columns
and leaves any other name unchanged. -/
def renameCol (c : String) : String :=
  (renamePairs.lookup c).getD c

/-- Rename the header of the table (`df.rename`, line 38). -/
def renameTable (t : RawTable) : RawTable :=
  ⟨t.header.map renameCol, t.rows⟩

/-- The `num_cols` list of lines 57-61 (post-rename semantic names). -/
def num_cols : List String :=
  ["orbital_period", "semi_major_axis", "radius_earth", "mass_earth",
   "eccentricity", "insolation", "eq_temp", "star_temp",
   "star_radius", "star_mass", "metallicity", "distance_pc"]

/-- Position of a column name in a header (`df[c]` column lookup):
index of the first occurrence, `none` when the column is absent. -/
def colIdx (hdr : List String) (c : String) : Option Nat :=
  match hdr with
  | [] => none
  | h :: hs => if h = c then some 0 else (colIdx hs c).map (· + 1)

/-- One iteration of the loop at lines 63-64:
`df[c] = pd.to_numeric(df[c], errors="coerce")`. Reading `df[c]` on a
missing column raises `KeyError(c)`, modelled as `.error c`; otherwise
every cell of column `c` is coerced in place. -/
def coerceCol (t : RawTable) (c : String) : Except String RawTable :=
  match colIdx t.header c with
  | none => .error c
  | some i =>
    .ok ⟨t.header, t.rows.map (fun row => row.set i (numCell (to_numeric (row.getD i Cell.empty))))⟩

/-- The whole coercion loop `for c in num_cols`, lines 63-64. -/
def coerceAll (t : RawTable) : List String → Except String RawTable
  | [] => .ok t
  | c :: cs =>
    match coerceCol t c with
    | .error e => .error e
    | .ok u => coerceAll u cs

/-- Lines 79 and 92: append the two derived columns,
`df["size_type"] = df["radius_earth"].apply(size_bucket)` and
`df["temp_type"] = df["eq_temp"].apply(temp_bucket)`. Reading a missing
column would raise `KeyError`, modelled as `.error`. -/
def addDerived (t : RawTable) : Except String RawTable :=
  match colIdx t.header "radius_earth", colIdx t.header "eq_temp" with
  | some i, some j =>
    .ok ⟨t.header ++ ["size_type", "temp_type"],
      t.rows.map (fun row =>
        row ++ [Cell.str (size_bucket (cellVal (row.getD i Cell.empty))),
                Cell.str (temp_bucket (cellVal (row.getD j Cell.empty)))])⟩
  | none, _ => .error "radius_earth"
  | some _, none => .error "eq_temp"

/-- The body of `load_data` (lines 35-94) after the CSV read: rename,
coerce the twelve numeric columns, derive the two bucket columns. A
Python `KeyError` is modelled as `.error` carrying the column name. -/
def load_data (t : RawTable) : Except String RawTable :=
  match coerceAll (renameTable t) num_cols with
  | .error e => .error e
  | .ok u => addDerived u

/-! Typed view of a normalized row. -/

/-- A fully normalized row (post `load_data`): semantic names, coerced
numeric fields (NaN as `none`), plus the two derived bucket columns. -/
structure Record where
  planet : String
  star : String
  method : Option String
  year : Option Int
  orbital_period : Option ℚ
  semi_major_axis : Option ℚ
  radius_earth : Option ℚ
  mass_earth : Option ℚ
  eccentricity : Option ℚ
  insolation : Option ℚ
  eq_temp : Option ℚ
  star_temp : Option ℚ
  star_radius : Option ℚ
  star_mass : Option ℚ
  metallicity : Option ℚ
  distance_pc : Option ℚ
  size_type : String
  temp_type : String
deriving DecidableEq, Repr

/-- A renamed, coerced row before the two derived columns are added
(the state of `df` between line 64 and line 79). -/
structure PreRecord where
  planet : String
  star : String
  method : Option String
  year : Option Int
  orbital_period : Option ℚ
  semi_major_axis : Option ℚ
  radius_earth : Option ℚ
  mass_earth : Option ℚ
  eccentricity : Option ℚ
  insolation : Option ℚ
  eq_temp : Option ℚ
  star_temp : Option ℚ
  star_radius : Option ℚ
  star_mass : Option ℚ
  metallicity : Option ℚ
  distance_pc : Option ℚ
deriving DecidableEq, Repr

/-- Lines 79 and 92 in typed form: each row gains
`size_type = size_bucket radius_earth` and
`temp_type = temp_bucket eq_temp`. -/
def normalize (rows : List PreRecord) : List Record :=
  rows.map (fun p =>
    { planet := p.planet, star := p.star, method := p.method, year := p.year,
      orbital_period := p.orbital_period, semi_major_axis := p.semi_major_axis,
      radius_earth := p.radius_earth, mass_earth := p.mass_earth,
      eccentricity := p.eccentricity, insolation := p.insolation,
      eq_temp := p.eq_temp, star_temp := p.star_temp,
      star_radius := p.star_radius, star_mass := p.star_mass,
      metallicity := p.metallicity, distance_pc := p.distance_pc,
      size_type := size_bucket p.radius_earth,
      temp_type := temp_bucket p.eq_temp })

/-! The filter (lines 130-135) and sidebar defaults (lines 102-127). -/

/-- Pandas `Series.between(lo, hi)` (inclusive); NaN compares false. -/
def between (y : Option Int) (lo hi : Int) : Bool :=
  match y with
  | none => false
  | some v => decide (lo ≤ v) && decide (v ≤ hi)

/-- Pandas `Series.isin(values)` on a nullable string column: NaN is not
a member of a list of strings. -/
def isin (v : Option String) (vals : List String) : Bool :=
  match v with
  | none => false
  | some x => vals.contains x

/-- The boolean-mask filter of lines 130-135. -/
def filtered (df : List Record) (year_range : Int × Int)
    (methods sizes temps : List String) : List Record :=
  df.filter (fun r =>
    between r.year year_range.1 year_range.2 &&
    isin r.method methods &&
    sizes.contains r.size_type &&
    temps.contains r.temp_type)

/-- Minimum of an integer list (`Series.min()` skipping NaN). -/
def listMin : List Int → Option Int
  | [] => none
  | a :: as =>
    match listMin as with
    | none => some a
    | some m => some (min a m)

/-- Maximum of an integer list (`Series.max()` skipping NaN). -/
def listMax : List Int → Option Int
  | [] => none
  | a :: as =>
    match listMax as with
    | none => some a
    | some m => some (max a m)

/-- Line 102, `int(df["year"].min())`: the minimum over the non-null
years; `int(nan)` (empty column or all-null) raises `ValueError`,
modelled as `.error "year"`. -/
def min_year (df : List Record) : Except String Int :=
  match listMin (df.filterMap Record.year) with
  | some m => .ok m
  | none => .error "year"

/-- Line 103, `int(df["year"].max())`, same error model. -/
def max_year (df : List Record) : Except String Int :=
  match listMax (df.filterMap Record.year) with
  | some m => .ok m
  | none => .error "year"

/-- Insert into a list, before the first element not `le`-below `a`
(insertion step of a comparison sort). -/
def insertLe {α : Type _} (le : α → α → Bool) (a : α) : List α → List α
  | [] => [a]
  | b :: bs => if le a b then a :: b :: bs else b :: insertLe le a bs

/-- Comparison sort by repeated insertion, used to model `sorted(...)`
and `sort_values`/`value_counts` orderings. -/
def sortLe {α : Type _} (le : α → α → Bool) (l : List α) : List α :=
  l.foldr (insertLe le) []

/-- String order as a boolean relation, for Python `sorted`. -/
def strLe (a b : String) : Bool := decide (a ≤ b)

/-- Integer order as a boolean relation, for `sort_values("year")`. -/
def intLe (a b : Int) : Bool := decide (a ≤ b)

/-- Lines 111-115: `sorted(df["method"].dropna().unique())`, the default
(and full) choice set of the Method multiselect. -/
def defaultMethods (df : List Record) : List String :=
  sortLe strLe (df.filterMap Record.method).dedup

/-- Lines 117-121: `sorted(df["size_type"].unique())`. -/
def defaultSizes (df : List Record) : List String :=
  sortLe strLe (df.map Record.size_type).dedup

/-- Lines 123-127: `sorted(df["temp_type"].unique())`. -/
def defaultTemps (df : List Record) : List String :=
  sortLe strLe (df.map Record.temp_type).dedup

/-! Metrics and charts (lines 144-213). -/

/-- Line 145: `filtered["star"].nunique()` (the star column is
non-null). -/
def host_stars (df : List Record) : Nat :=
  (df.map Record.star).dedup.length

/-- Line 146: `filtered["method"].nunique()`; `nunique` drops NaN. -/
def distinct_methods (df : List Record) : Nat :=
  (df.filterMap Record.method).dedup.length

/-- Line 147: `filtered["distance_pc"].mean()`; NaN cells are skipped
and an empty (or all-NaN) column yields NaN, modelled as `none`. -/
def avg_distance (df : List Record) : Option ℚ :=
  match df.filterMap Record.distance_pc with
  | [] => none
  | ds => some (ds.sum / ds.length)

/-- Lines 156-161: `filtered.groupby("year").size()` then
`sort_values("year")`: one row per distinct non-null year (groupby drops
NaN keys and sorts them), each with its row count, ascending by year. -/
def year_chart (df : List Record) : List (Int × Nat) :=
  (sortLe intLe (df.filterMap Record.year).dedup).map
    (fun y => (y, df.countP (fun r => r.year == some y)))

/-- Pandas `Series.value_counts()` on a string column with NaN already
removed: one entry per distinct value with its count, sorted by count
descending (ties in an unspecified stable order). -/
def value_counts (l : List String) : List (String × Nat) :=
  sortLe (fun a b => decide (b.2 ≤ a.2)) (l.dedup.map (fun v => (v, l.count v)))

/-- Lines 166-171: `filtered["method"].value_counts()` (drops NaN). -/
def method_chart (df : List Record) : List (String × Nat) :=
  value_counts (df.filterMap Record.method)

/-- Lines 181-186: `filtered["size_type"].value_counts()`. -/
def size_chart (df : List Record) : List (String × Nat) :=
  value_counts (df.map Record.size_type)

/-- Lines 191-196: `filtered["temp_type"].value_counts()`. -/
def temp_chart (df : List Record) : List (String × Nat) :=
  value_counts (df.map Record.temp_type)

/-- Line 204: `filtered[["mass_earth", "radius_earth"]].dropna()`. -/
def scatter_df (df : List Record) : List (ℚ × ℚ) :=
  df.filterMap (fun r =>
    match r.mass_earth, r.radius_earth with
    | some m, some rad => some (m, rad)
    | _, _ => none)

/-- Everything the dashboard derives from one predicate set. -/
structure Views where
  total : Nat
  stars : Nat
  distinctMethods : Nat
  avgDist : Option ℚ
  yearTab : List (Int × Nat)
  methodTab : List (String × Nat)
  sizeTab : List (String × Nat)
  tempTab : List (String × Nat)
  scatter : List (ℚ × ℚ)
  tableView : List Record
deriving DecidableEq

/-- One render cycle (lines 130-213): filter once, compute every derived
view, and return the dataset as the cycle leaves it alongside the views
(the dashboard never writes back into `df`). -/
def render (df : List Record) (year_range : Int × Int)
    (methods sizes temps : List String) : Views × List Record :=
  let v := filtered df year_range methods sizes temps
  (⟨v.length, host_stars v, distinct_methods v, avg_distance v,
    year_chart v, method_chart v, size_chart v, temp_chart v,
    scatter_df v, v⟩, df)

/-! Theorems. -/

lemma mkRat_5_4 : (mkRat 5 4 : ℚ) = 5/4 := by rw [Rat.mkRat_eq_div]; norm_num

lemma size_bucket_some (q : ℚ) :
    size_bucket (some q) =
      if q < 5/4 then "Earth-size" else if q < 2 then "Super-Earth"
      else if q < 6 then "Neptune-like" else "Gas Giant" := by
  simp [size_bucket, mkRat_5_4]

lemma temp_bucket_some (q : ℚ) :
    temp_bucket (some q) =
      if q < 200 then "Cold" else if q < 800 then "Warm" else "Hot" := by
  simp [temp_bucket]

/-- C1: every normalized record carries `size_type`/`temp_type` computed
purely from its `radius_earth`/`eq_temp`; the buckets are `Unknown`
exactly on null, and otherwise the half-open ranges split at 1.25, 2, 6
for size and at 200, 800 for temperature. -/
theorem c1_bucket_functions :
    (∀ (rows : List PreRecord) (r : Record), r ∈ normalize rows →
      r.size_type = size_bucket r.radius_earth ∧ r.temp_type = temp_bucket r.eq_temp) ∧
    (∀ x : Option ℚ,
      (size_bucket x = "Unknown" ↔ x = none) ∧ (temp_bucket x = "Unknown" ↔ x = none)) ∧
    (∀ q : ℚ,
      (size_bucket (some q) = "Earth-size" ↔ q < 5/4) ∧
      (size_bucket (some q) = "Super-Earth" ↔ 5/4 ≤ q ∧ q < 2) ∧
      (size_bucket (some q) = "Neptune-like" ↔ 2 ≤ q ∧ q < 6) ∧
      (size_bucket (some q) = "Gas Giant" ↔ 6 ≤ q)) ∧
    (∀ q : ℚ,
      (temp_bucket (some q) = "Cold" ↔ q < 200) ∧
      (temp_bucket (some q) = "Warm" ↔ 200 ≤ q ∧ q < 800) ∧
      (temp_bucket (some q) = "Hot" ↔ 800 ≤ q)) := by
  refine ⟨?_, ?_, ?_, ?_⟩
  · intro rows r hr
    simp only [normalize, List.mem_map] at hr
    obtain ⟨p, -, rfl⟩ := hr
    exact ⟨rfl, rfl⟩
  · intro x
    cases x with
    | none => simp [size_bucket, temp_bucket]
    | some q =>
      rw [size_bucket_some, temp_bucket_some]
      constructor <;> split_ifs <;> simp_all
  · intro q
    refine ⟨?_, ?_, ?_, ?_⟩ <;>
      (rw [size_bucket_some]; split_ifs <;> simp_all <;> (intros; linarith))
  · intro q
    refine ⟨?_, ?_, ?_⟩ <;>
      (rw [temp_bucket_some]; split_ifs <;> simp_all <;> (intros; linarith))

/-- A concrete pre-normalization row used to instantiate theorems. -/
def pre0 : PreRecord :=
  ⟨"Kepler-1b", "Kepler-1", some "Transit", some 2010,
   none, none, some 1, none, none, none, some 500, none, none, none, none, none⟩

/-- The normalized form of `pre0`. -/
def rec0 : Record :=
  ⟨"Kepler-1b", "Kepler-1", some "Transit", some 2010,
   none, none, some 1, none, none, none, some 500, none, none, none, none, none,
   "Earth-size", "Warm"⟩

/-- Witness for C1 at the concrete row `pre0`. -/
theorem c1_bucket_functions_witness :
    rec0.size_type = size_bucket rec0.radius_earth ∧
    rec0.temp_type = temp_bucket rec0.eq_temp :=
  c1_bucket_functions.1 [pre0] rec0 (by decide)


lemma listMin_eq_none {l : List Int} : listMin l = none ↔ l = [] := by
  cases l with
  | nil => simp [listMin]
  | cons a as => cases h : listMin as <;> simp [listMin, h]

lemma listMax_eq_none {l : List Int} : listMax l = none ↔ l = [] := by
  cases l with
  | nil => simp [listMax]
  | cons a as => cases h : listMax as <;> simp [listMax, h]

lemma listMin_le {l : List Int} {m : Int} (h : listMin l = some m) :
    ∀ x ∈ l, m ≤ x := by
  induction l generalizing m with
  | nil => simp [listMin] at h
  | cons a as ih =>
    intro x hx
    cases has : listMin as with
    | none =>
      rw [listMin, has] at h
      simp only [Option.some.injEq] at h
      subst h
      rcases List.mem_cons.mp hx with rfl | hx'
      · exact le_refl x
      · rw [listMin_eq_none.mp has] at hx'
        cases hx'
    | some m' =>
      rw [listMin, has] at h
      simp only [Option.some.injEq] at h
      subst h
      rcases List.mem_cons.mp hx with rfl | hx'
      · exact min_le_left x m'
      · exact le_trans (min_le_right a m') (ih has x hx')

lemma listMax_ge {l : List Int} {m : Int} (h : listMax l = some m) :
    ∀ x ∈ l, x ≤ m := by
  induction l generalizing m with
  | nil => simp [listMax] at h
  | cons a as ih =>
    intro x hx
    cases has : listMax as with
    | none =>
      rw [listMax, has] at h
      simp only [Option.some.injEq] at h
      subst h
      rcases List.mem_cons.mp hx with rfl | hx'
      · exact le_refl x
      · rw [listMax_eq_none.mp has] at hx'
        cases hx'
    | some m' =>
      rw [listMax, has] at h
      simp only [Option.some.injEq] at h
      subst h
      rcases List.mem_cons.mp hx with rfl | hx'
      · exact le_max_left x m'
      · exact le_trans (ih has x hx') (le_max_right a m')

lemma mem_insertLe {α : Type _} {le : α → α → Bool} {x a : α} {l : List α} :
    x ∈ insertLe le a l ↔ x = a ∨ x ∈ l := by
  induction l with
  | nil => simp [insertLe]
  | cons b bs ih =>
    simp only [insertLe]
    split <;> simp [ih] <;> tauto

lemma mem_sortLe {α : Type _} {le : α → α → Bool} {x : α} {l : List α} :
    x ∈ sortLe le l ↔ x ∈ l := by
  induction l with
  | nil => simp [sortLe]
  | cons a as ih =>
    show x ∈ insertLe le a (sortLe le as) ↔ _
    rw [mem_insertLe]
    simp [ih]


/-- C2: a record appears in the filtered view exactly when it is in the
dataset, its year is non-null and lies in the inclusive year range, its
method is non-null and listed in `methods`, and its `size_type` and
`temp_type` are listed; in particular a null method is always excluded
(the sidebar filter sets are lists of strings and cannot contain null). -/
theorem c2_row_inclusion :
    ∀ (df : List Record) (year_range : Int × Int) (methods sizes temps : List String)
      (r : Record),
      (r ∈ filtered df year_range methods sizes temps ↔
        r ∈ df ∧
        (∃ y, r.year = some y ∧ year_range.1 ≤ y ∧ y ≤ year_range.2) ∧
        (∃ m, r.method = some m ∧ m ∈ methods) ∧
        r.size_type ∈ sizes ∧ r.temp_type ∈ temps) ∧
      (r.method = none → r ∉ filtered df year_range methods sizes temps) := by
  intro df yr ms ss ts r
  have main : r ∈ filtered df yr ms ss ts ↔
      r ∈ df ∧
      (∃ y, r.year = some y ∧ yr.1 ≤ y ∧ y ≤ yr.2) ∧
      (∃ m, r.method = some m ∧ m ∈ ms) ∧
      r.size_type ∈ ss ∧ r.temp_type ∈ ts := by
    simp only [filtered, List.mem_filter, Bool.and_eq_true]
    cases hy : r.year <;> cases hm : r.method <;>
      simp [between, isin, hy, hm, and_assoc]
  refine ⟨main, fun hm hmem => ?_⟩
  obtain ⟨-, -, ⟨m, hm2, -⟩, -⟩ := main.mp hmem
  rw [hm] at hm2
  exact Option.noConfusion hm2

/-- Witness for C2: the concrete record `rec0` passes a filter listing
its year, method and buckets. -/
theorem c2_row_inclusion_witness :
    rec0 ∈ filtered [rec0] (2000, 2025) ["Transit"] ["Earth-size"] ["Warm"] :=
  ((c2_row_inclusion [rec0] (2000, 2025) ["Transit"] ["Earth-size"] ["Warm"] rec0).1).mpr
    (by refine ⟨by decide, ⟨2010, by decide, by decide, by decide⟩,
          ⟨"Transit", by decide, by decide⟩, by decide, by decide⟩)

/-- C6: filtering is idempotent — filtering an already-filtered view
with the same predicate set returns the same view. -/
theorem c6_filter_idempotent :
    ∀ (df : List Record) (year_range : Int × Int) (methods sizes temps : List String),
      filtered (filtered df year_range methods sizes temps) year_range methods sizes temps =
        filtered df year_range methods sizes temps := by
  intro df yr ms ss ts
  rw [filtered, filtered, List.filter_filter]
  congr 1
  funext r
  rw [Bool.and_self]

/-- C9: one render cycle returns the normalized dataset unchanged
(records and order); the filtered view is a subsequence of it, derived
without mutation. -/
theorem c9_dataset_immutable :
    ∀ (df : List Record) (year_range : Int × Int) (methods sizes temps : List String),
      (render df year_range methods sizes temps).2 = df ∧
      (filtered df year_range methods sizes temps).Sublist df := by
  intro df yr ms ss ts
  exact ⟨rfl, List.filter_sublist _⟩

/-- C3 (amended): when every record has a non-null year and a non-null
method, filtering with the default sidebar predicate set — the observed
year range and the full default choice sets — is the identity on the
dataset. (The unamended claim is refuted by `c3_counterexample`: a
record with a null method is dropped by the default filter, because the
default method list contains only non-null methods.) -/
theorem c3_default_identity (df : List Record) (lo hi : Int)
    (hy : ∀ r ∈ df, r.year.isSome) (hm : ∀ r ∈ df, r.method.isSome)
    (hlo : min_year df = .ok lo) (hhi : max_year df = .ok hi) :
    filtered df (lo, hi) (defaultMethods df) (defaultSizes df) (defaultTemps df) = df := by
  have hlo' : listMin (df.filterMap Record.year) = some lo := by
    unfold min_year at hlo
    cases h : listMin (df.filterMap Record.year) <;> rw [h] at hlo <;> simp_all
  have hhi' : listMax (df.filterMap Record.year) = some hi := by
    unfold max_year at hhi
    cases h : listMax (df.filterMap Record.year) <;> rw [h] at hhi <;> simp_all
  rw [filtered, List.filter_eq_self]
  intro r hr
  obtain ⟨y, hy'⟩ := Option.isSome_iff_exists.mp (hy r hr)
  obtain ⟨m, hm'⟩ := Option.isSome_iff_exists.mp (hm r hr)
  have hymem : y ∈ df.filterMap Record.year := List.mem_filterMap.mpr ⟨r, hr, hy'⟩
  have h1 : lo ≤ y := listMin_le hlo' y hymem
  have h2 : y ≤ hi := listMax_ge hhi' y hymem
  have hmm : m ∈ defaultMethods df := by
    rw [defaultMethods, mem_sortLe, List.mem_dedup]
    exact List.mem_filterMap.mpr ⟨r, hr, hm'⟩
  have hss : r.size_type ∈ defaultSizes df := by
    rw [defaultSizes, mem_sortLe, List.mem_dedup]
    exact List.mem_map_of_mem _ hr
  have hts : r.temp_type ∈ defaultTemps df := by
    rw [defaultTemps, mem_sortLe, List.mem_dedup]
    exact List.mem_map_of_mem _ hr
  simp [between, isin, hy', hm', h1, h2, hmm, hss, hts]

/-- A record whose discovery method is null (its numeric fields null,
so both buckets are `Unknown`). -/
def recNull : Record :=
  ⟨"HD 1b", "HD 1", none, some 2020,
   none, none, none, none, none, none, none, none, none, none, none, none,
   "Unknown", "Unknown"⟩

/-- Counterexample to C3 as stated: on the one-record dataset
`[recNull]` (null method), the default predicate set — year range
(2020, 2020) from `min_year`/`max_year` and the default choice sets —
yields an empty filtered view, not the full dataset. -/
theorem c3_counterexample :
    min_year [recNull] = .ok 2020 ∧ max_year [recNull] = .ok 2020 ∧
    (filtered [recNull] (2020, 2020) (defaultMethods [recNull])
        (defaultSizes [recNull]) (defaultTemps [recNull])).length = 0 ∧
    ([recNull] : List Record).length = 1 := by
  refine ⟨by rfl, by rfl, by rfl, by rfl⟩

/-- Witness for the amended C3 at the one-record dataset `[rec0]`. -/
theorem c3_witness :
    filtered [rec0] (2010, 2010) (defaultMethods [rec0])
      (defaultSizes [rec0]) (defaultTemps [rec0]) = [rec0] :=
  c3_default_identity [rec0] 2010 2010 (by decide) (by decide) (by rfl) (by rfl)

/-- C10: building the default year range takes `int(min)`/`int(max)` of
the year column without a guard, so it fails (raises, modelled as
`.error`) exactly when the dataset is empty or every year is missing,
and succeeds whenever at least one record has a year. -/
theorem c10_year_range_unguarded (df : List Record) :
    ((∀ r ∈ df, r.year = none) →
      min_year df = .error "year" ∧ max_year df = .error "year") ∧
    ((∃ r ∈ df, r.year ≠ none) →
      (∃ lo, min_year df = .ok lo) ∧ ∃ hi, max_year df = .ok hi) := by
  constructor
  · intro h
    have hnil : df.filterMap Record.year = [] := by
      rw [List.filterMap_eq_nil_iff]
      exact h
    rw [min_year, max_year, hnil]
    exact ⟨rfl, rfl⟩
  · rintro ⟨r, hr, hy⟩
    obtain ⟨y, hy'⟩ := Option.ne_none_iff_exists.mp hy
    have hymem : y ∈ df.filterMap Record.year := List.mem_filterMap.mpr ⟨r, hr, hy'.symm⟩
    have hne : df.filterMap Record.year ≠ [] := List.ne_nil_of_mem hymem
    constructor
    · cases h : listMin (df.filterMap Record.year) with
      | none => exact absurd (listMin_eq_none.mp h) hne
      | some m => exact ⟨m, by rw [min_year, h]⟩
    · cases h : listMax (df.filterMap Record.year) with
      | none => exact absurd (listMax_eq_none.mp h) hne
      | some m => exact ⟨m, by rw [max_year, h]⟩

/-- Witness for C10 on the empty dataset and on `[rec0]`. -/
theorem c10_witness :
    (min_year ([] : List Record) = .error "year" ∧
     max_year ([] : List Record) = .error "year") ∧
    ((∃ lo, min_year [rec0] = .ok lo) ∧ ∃ hi, max_year [rec0] = .ok hi) :=
  ⟨(c10_year_range_unguarded []).1 (by simp),
   (c10_year_range_unguarded [rec0]).2 ⟨rec0, by simp, by simp [rec0]⟩⟩


lemma colIdx_eq_none_iff {hdr : List String} {c : String} :
    colIdx hdr c = none ↔ c ∉ hdr := by
  induction hdr with
  | nil => simp [colIdx]
  | cons h hs ih =>
    by_cases hc : h = c
    · simp [colIdx, hc]
    · simp [colIdx, hc, Option.map_eq_none, ih, Ne.symm hc]

lemma coerceCol_ok_header {t u : RawTable} {c : String}
    (h : coerceCol t c = .ok u) : u.header = t.header := by
  unfold coerceCol at h
  cases hi : colIdx t.header c <;> rw [hi] at h
  · cases h
  · cases h
    rfl

lemma coerceCol_ok_mem {t u : RawTable} {c : String}
    (h : coerceCol t c = .ok u) : c ∈ t.header := by
  unfold coerceCol at h
  cases hi : colIdx t.header c <;> rw [hi] at h
  · cases h
  · by_contra hc
    rw [← colIdx_eq_none_iff] at hc
    rw [hc] at hi
    cases hi

lemma coerceCol_error {t : RawTable} {c e : String}
    (h : coerceCol t c = .error e) : e = c ∧ c ∉ t.header := by
  unfold coerceCol at h
  cases hi : colIdx t.header c <;> rw [hi] at h
  · cases h
    exact ⟨rfl, colIdx_eq_none_iff.mp hi⟩
  · cases h

lemma coerceCol_ok_rows_length {t u : RawTable} {c : String}
    (h : coerceCol t c = .ok u) : u.rows.length = t.rows.length := by
  unfold coerceCol at h
  cases hi : colIdx t.header c <;> rw [hi] at h
  · cases h
  · cases h
    exact List.length_map _ _

lemma coerceAll_ok_header {cs : List String} {t u : RawTable}
    (h : coerceAll t cs = .ok u) : u.header = t.header := by
  induction cs generalizing t with
  | nil =>
    cases h
    rfl
  | cons c cs ih =>
    rw [coerceAll] at h
    cases hc : coerceCol t c <;> rw [hc] at h
    · cases h
    · exact (ih h).trans (coerceCol_ok_header hc)

lemma coerceAll_ok_rows_length {cs : List String} {t u : RawTable}
    (h : coerceAll t cs = .ok u) : u.rows.length = t.rows.length := by
  induction cs generalizing t with
  | nil =>
    cases h
    rfl
  | cons c cs ih =>
    rw [coerceAll] at h
    cases hc : coerceCol t c <;> rw [hc] at h
    · cases h
    · exact (ih h).trans (coerceCol_ok_rows_length hc)

lemma coerceAll_ok_mem {cs : List String} {t u : RawTable}
    (h : coerceAll t cs = .ok u) : ∀ c ∈ cs, c ∈ t.header := by
  induction cs generalizing t with
  | nil => simp
  | cons c cs ih =>
    rw [coerceAll] at h
    cases hc : coerceCol t c <;> rw [hc] at h
    · cases h
    · intro d hd
      rcases List.mem_cons.mp hd with rfl | hd'
      · exact coerceCol_ok_mem hc
      · have := ih h d hd'
        rwa [coerceCol_ok_header hc] at this

lemma coerceAll_error {cs : List String} {t : RawTable} {e : String}
    (h : coerceAll t cs = .error e) : e ∈ cs ∧ e ∉ t.header := by
  induction cs generalizing t with
  | nil => cases h
  | cons c cs ih =>
    rw [coerceAll] at h
    cases hc : coerceCol t c <;> rw [hc] at h
    · cases h
      obtain ⟨rfl, hmem⟩ := coerceCol_error hc
      exact ⟨List.mem_cons_self _ _, hmem⟩
    · obtain ⟨h1, h2⟩ := ih h
      rw [coerceCol_ok_header hc] at h2
      exact ⟨List.mem_cons_of_mem _ h1, h2⟩

lemma load_data_ok_mem {t u : RawTable} (h : load_data t = .ok u) :
    ∀ c ∈ num_cols, c ∈ (renameTable t).header := by
  unfold load_data at h
  cases hc : coerceAll (renameTable t) num_cols <;> rw [hc] at h
  · cases h
  · exact coerceAll_ok_mem hc

lemma load_data_error {t : RawTable} {e : String} (h : load_data t = .error e) :
    e ∈ num_cols ∧ e ∉ (renameTable t).header := by
  unfold load_data at h
  cases hc : coerceAll (renameTable t) num_cols <;> rw [hc] at h
  · cases h
    exact coerceAll_error hc
  · exfalso
    rename_i v
    replace h : addDerived v = Except.error e := h
    have hrad : "radius_earth" ∈ v.header := by
      rw [coerceAll_ok_header hc]
      exact coerceAll_ok_mem hc "radius_earth" (by decide)
    have heqt : "eq_temp" ∈ v.header := by
      rw [coerceAll_ok_header hc]
      exact coerceAll_ok_mem hc "eq_temp" (by decide)
    unfold addDerived at h
    cases h1 : colIdx v.header "radius_earth" <;> rw [h1] at h
    · exact absurd (colIdx_eq_none_iff.mp h1) (by simpa using hrad)
    · cases h2 : colIdx v.header "eq_temp" <;> rw [h2] at h
      · exact absurd (colIdx_eq_none_iff.mp h2) (by simpa using heqt)
      · cases h

lemma load_data_ok_rows_length {t u : RawTable} (h : load_data t = .ok u) :
    u.rows.length = t.rows.length := by
  unfold load_data at h
  cases hc : coerceAll (renameTable t) num_cols <;> rw [hc] at h
  · cases h
  · rename_i v
    replace h : addDerived v = Except.ok u := h
    have hv : v.rows.length = (renameTable t).rows.length := coerceAll_ok_rows_length hc
    unfold addDerived at h
    cases h1 : colIdx v.header "radius_earth" <;> rw [h1] at h
    · cases h
    · cases h2 : colIdx v.header "eq_temp" <;> rw [h2] at h
      · cases h
      · cases h
        simpa [renameTable] using hv

/-- C5 (amended): the load checks only the twelve numeric measurement
columns: a successful load implies every one of them is present (so the
load is all-or-nothing for them), a failed load names (the semantic,
post-rename form of) a missing numeric column, and a missing numeric
column forces a failure. (The unamended claim — that a missing `pl_name`
or other non-numeric raw column also fails the load — is refuted by
`c5_counterexample`.) -/
theorem c5_missing_numeric_column :
    (∀ (t u : RawTable), load_data t = .ok u → ∀ c ∈ num_cols, c ∈ (renameTable t).header) ∧
    (∀ (t : RawTable) (e : String), load_data t = .error e →
      e ∈ num_cols ∧ e ∉ (renameTable t).header) ∧
    (∀ (t : RawTable) (c : String), c ∈ num_cols → c ∉ (renameTable t).header →
      ∃ e, load_data t = .error e ∧ e ∈ num_cols ∧ e ∉ (renameTable t).header) := by
  refine ⟨fun t u h => load_data_ok_mem h, fun t e h => load_data_error h, fun t c hc hna => ?_⟩
  cases h : load_data t with
  | ok u => exact absurd (load_data_ok_mem h c hc) hna
  | error e => exact ⟨e, rfl, load_data_error h⟩

/-- The full raw CSV header expected by the rename table. -/
def rawHeader16 : List String :=
  ["pl_name", "hostname", "discoverymethod", "disc_year", "pl_orbper", "pl_orbsmax",
   "pl_rade", "pl_bmasse", "pl_orbeccen", "pl_insol", "pl_eqt", "st_teff",
   "st_rad", "st_mass", "st_met", "sy_dist"]

/-- A raw table whose header lacks `pl_name` only. -/
def tMissingPlName : RawTable :=
  ⟨rawHeader16.tail, [List.replicate 15 Cell.empty]⟩

/-- A raw table whose header lacks `pl_rade` only. -/
def tMissingRade : RawTable :=
  ⟨rawHeader16.filter (· != "pl_rade"), []⟩

/-- Counterexample to C5 as stated: a table missing the required raw
column `pl_name` still loads successfully — no error is raised for the
four non-numeric columns of the rename table. -/
theorem c5_counterexample :
    "pl_name" ∉ tMissingPlName.header ∧ (load_data tMissingPlName).isOk = true :=
  ⟨by decide, by rfl⟩

/-- Witness for C5 at a table missing `pl_rade`: the load fails naming
`radius_earth`, a numeric column absent from the renamed header. -/
theorem c5_witness :
    "radius_earth" ∈ num_cols ∧ "radius_earth" ∉ (renameTable tMissingRade).header :=
  c5_missing_numeric_column.2.1 tMissingRade "radius_earth" (by rfl)

/-- C4: numeric coercion parses `"12.5"` to the number 12.5 and turns
the unparseable `"N/A"` into null instead of failing; coercing a column
keeps every row (same row count) and rewrites only the cells of that
column, leaving every other column position of each row unchanged; a
full load also preserves the row count. -/
theorem c4_coercion_locality :
    (to_numeric (.str "12.5") = some (25/2 : ℚ)) ∧
    (to_numeric (.str "N/A") = none) ∧
    (∀ (t : RawTable) (c : String) (u : RawTable), coerceCol t c = .ok u →
      u.header = t.header ∧ u.rows.length = t.rows.length ∧
      ∀ i, colIdx t.header c = some i →
        u.rows = t.rows.map (fun row => row.set i (numCell (to_numeric (row.getD i Cell.empty)))) ∧
        ∀ (row : List Cell) (j : Nat), j ≠ i →
          (row.set i (numCell (to_numeric (row.getD i Cell.empty)))).getD j Cell.empty =
            row.getD j Cell.empty) ∧
    (∀ (t u : RawTable), load_data t = .ok u → u.rows.length = t.rows.length) := by
  refine ⟨?_, rfl, ?_, fun t u h => load_data_ok_rows_length h⟩
  · have h1 : (25/2 : ℚ) = mkRat 25 2 := by rw [Rat.mkRat_eq_div]; norm_num
    rw [h1]
    decide
  · intro t c u h
    refine ⟨coerceCol_ok_header h, coerceCol_ok_rows_length h, fun i hi => ?_⟩
    constructor
    · unfold coerceCol at h
      rw [hi] at h
      cases h
      rfl
    · intro row j hj
      simp [List.getD_eq_getElem?_getD, List.getElem?_set_ne (Ne.symm hj)]

/-- A one-column, one-row table whose cell is the unparseable `"N/A"`. -/
def tNA : RawTable := ⟨["radius_earth"], [[Cell.str "N/A"]]⟩

/-- The result of coercing `tNA`: the cell is nulled, the row kept. -/
def uNA : RawTable := ⟨["radius_earth"], [[Cell.empty]]⟩

/-- Witness for C4 at the one-cell table `tNA` whose only cell fails
coercion: the row survives with the cell nulled. -/
theorem c4_witness :
    uNA.header = tNA.header ∧ uNA.rows.length = tNA.rows.length :=
  ⟨(c4_coercion_locality.2.2.1 tNA "radius_earth" uNA (by rfl)).1,
   (c4_coercion_locality.2.2.1 tNA "radius_earth" uNA (by rfl)).2.1⟩


lemma insertLe_perm {α : Type _} (le : α → α → Bool) (a : α) (l : List α) :
    List.Perm (insertLe le a l) (a :: l) := by
  induction l with
  | nil => rfl
  | cons b bs ih =>
    rw [insertLe]
    by_cases hab : le a b = true
    · rw [if_pos hab]
    · rw [if_neg hab]
      exact (ih.cons b).trans (List.Perm.swap a b bs)

lemma sortLe_perm {α : Type _} (le : α → α → Bool) (l : List α) :
    List.Perm (sortLe le l) l := by
  induction l with
  | nil => rfl
  | cons a as ih =>
    show List.Perm (insertLe le a (sortLe le as)) (a :: as)
    exact (insertLe_perm le a (sortLe le as)).trans (ih.cons a)

lemma pairwise_insertLe {α : Type _} {le : α → α → Bool}
    (htot : ∀ a b, le a b = true ∨ le b a = true)
    (htrans : ∀ a b c, le a b = true → le b c = true → le a c = true)
    (a : α) {l : List α} (h : l.Pairwise (fun x y => le x y = true)) :
    (insertLe le a l).Pairwise (fun x y => le x y = true) := by
  induction l with
  | nil => simp [insertLe]
  | cons b bs ih =>
    rw [insertLe]
    rcases List.pairwise_cons.mp h with ⟨hb, hbs⟩
    by_cases hab : le a b = true
    · rw [if_pos hab]
      refine List.pairwise_cons.mpr ⟨?_, h⟩
      intro x hx
      rcases List.mem_cons.mp hx with rfl | hx'
      · exact hab
      · exact htrans a b x hab (hb x hx')
    · rw [if_neg hab]
      refine List.pairwise_cons.mpr ⟨?_, ih hbs⟩
      intro x hx
      rcases mem_insertLe.mp hx with hxa | hx'
      · subst hxa
        rcases htot x b with h1 | h1
        · exact absurd h1 hab
        · exact h1
      · exact hb x hx'

lemma pairwise_sortLe {α : Type _} {le : α → α → Bool}
    (htot : ∀ a b, le a b = true ∨ le b a = true)
    (htrans : ∀ a b c, le a b = true → le b c = true → le a c = true)
    (l : List α) : (sortLe le l).Pairwise (fun x y => le x y = true) := by
  induction l with
  | nil => exact List.Pairwise.nil
  | cons a as ih => exact pairwise_insertLe htot htrans a ih

/-- C7: an empty filtered result is handled without failure: the row
count, distinct star count, and distinct method count are 0, the mean
distance is undefined (`none`, pandas NaN) — as it also is whenever all
distances in the view are null — and every grouped-count table is
empty. -/
theorem c7_empty_view :
    (∀ (df : List Record) (year_range : Int × Int) (methods sizes temps : List String),
      filtered df year_range methods sizes temps = [] →
        (filtered df year_range methods sizes temps).length = 0 ∧
        host_stars (filtered df year_range methods sizes temps) = 0 ∧
        distinct_methods (filtered df year_range methods sizes temps) = 0 ∧
        avg_distance (filtered df year_range methods sizes temps) = none ∧
        year_chart (filtered df year_range methods sizes temps) = [] ∧
        method_chart (filtered df year_range methods sizes temps) = [] ∧
        size_chart (filtered df year_range methods sizes temps) = [] ∧
        temp_chart (filtered df year_range methods sizes temps) = []) ∧
    (∀ df : List Record, (∀ r ∈ df, r.distance_pc = none) → avg_distance df = none) := by
  constructor
  · intro df yr ms ss ts h
    rw [h]
    exact ⟨rfl, rfl, rfl, rfl, rfl, rfl, rfl, rfl⟩
  · intro df h
    have hnil : df.filterMap Record.distance_pc = [] :=
      List.filterMap_eq_nil_iff.mpr h
    rw [avg_distance, hnil]

/-- Witness for C7: the predicate set with empty choice sets filters
`[recNull]` down to the empty view. -/
theorem c7_witness :
    (filtered [recNull] (2020, 2020) [] [] []).length = 0 ∧
    host_stars (filtered [recNull] (2020, 2020) [] [] []) = 0 ∧
    distinct_methods (filtered [recNull] (2020, 2020) [] [] []) = 0 ∧
    avg_distance (filtered [recNull] (2020, 2020) [] [] []) = none ∧
    year_chart (filtered [recNull] (2020, 2020) [] [] []) = [] ∧
    method_chart (filtered [recNull] (2020, 2020) [] [] []) = [] ∧
    size_chart (filtered [recNull] (2020, 2020) [] [] []) = [] ∧
    temp_chart (filtered [recNull] (2020, 2020) [] [] []) = [] :=
  c7_empty_view.1 [recNull] (2020, 2020) [] [] [] (by rfl)

/-- C8: the year→count table of a filtered view is strictly ascending
by year, with an entry exactly for each distinct year present after
filtering, and the method→count table is sorted descending by count. -/
theorem c8_chart_orderings :
    ∀ (df : List Record) (year_range : Int × Int) (methods sizes temps : List String),
      ((year_chart (filtered df year_range methods sizes temps)).map Prod.fst).Pairwise
        (fun a b : Int => a < b) ∧
      (∀ y : Int,
        y ∈ (year_chart (filtered df year_range methods sizes temps)).map Prod.fst ↔
          some y ∈ (filtered df year_range methods sizes temps).map Record.year) ∧
      ((method_chart (filtered df year_range methods sizes temps)).map Prod.snd).Pairwise
        (fun a b : Nat => b ≤ a) := by
  intro df yr ms ss ts
  set v := filtered df yr ms ss ts with hv
  have hkeys : (year_chart v).map Prod.fst = sortLe intLe (v.filterMap Record.year).dedup := by
    rw [year_chart, List.map_map]
    exact List.map_id _
  refine ⟨?_, ?_, ?_⟩
  · rw [hkeys]
    have hle : (sortLe intLe (v.filterMap Record.year).dedup).Pairwise
        (fun x y => intLe x y = true) :=
      pairwise_sortLe (fun a b => by simp [intLe]; omega)
        (fun a b c h1 h2 => by simp [intLe] at *; omega) _
    have hnd : (sortLe intLe (v.filterMap Record.year).dedup).Nodup :=
      ((sortLe_perm intLe _).nodup_iff).mpr (List.nodup_dedup _)
    refine (hle.and hnd).imp ?_
    intro a b hab
    have h1 : a ≤ b := by simpa [intLe] using hab.1
    exact lt_of_le_of_ne h1 hab.2
  · intro y
    rw [hkeys, mem_sortLe, List.mem_dedup, List.mem_filterMap, List.mem_map]
  · rw [method_chart, value_counts]
    have hle := @pairwise_sortLe (String × Nat) (fun a b => decide (b.2 ≤ a.2))
      (fun a b => by rcases Nat.le_total b.2 a.2 with h | h <;> simp [h])
      (fun a b c h1 h2 => by simp at *; omega)
      ((v.filterMap Record.method).dedup.map
        (fun m => (m, (v.filterMap Record.method).count m)))
    refine List.pairwise_map.mpr (hle.imp ?_)
    intro a b hab
    simpa using hab

end Exoplanets
